import Mathlib

/-!
Verification of the WhatsApp sender dispatch engine (src/app_2.0.py).

The embedding models the send path of the "Send WhatsApp Messages" tab:
field-mapping resolution, image-URL priority, payload construction
(including the aliasing of the params dict into the payload), HTTP outcome
classification, the as_completed merge loop, and the report highlight pass.

Conventions of the embedding:
- A spreadsheet row is an association list from column name to the cell
  value rendered as a string (the code applies str(...) to every cell it
  reads, so cells are modelled directly as strings).
- A Python dict that is consumed in insertion order is an association list.
- The network is an oracle: requests.post either raises (Except.error with
  the exception text) or returns a response whose body either JSON-decodes
  (Except.ok) or raises on response.json() (Except.error with the
  decoding-exception text).
-/

namespace AppV2

/-- JSON-like values, enough for the payload the app builds: strings and
objects with ordered fields. -/
inductive JVal where
  | str (s : String)
  | obj (fields : List (String × JVal))

/-- Look a key up in an ordered JSON field list (first match, as a Python
dict read). -/
def lookupJFields : List (String × JVal) → String → Option JVal
  | [], _ => none
  | (k, v) :: rest, key => if k = key then some v else lookupJFields rest key

/-- Look a key up in a JSON object. -/
def JVal.lookup : JVal → String → Option JVal
  | .str _, _ => none
  | .obj fields, key => lookupJFields fields key

/-- True exactly on string leaves. -/
def JVal.isStr : JVal → Bool
  | .str _ => true
  | .obj _ => false

/-- Extract the string of a string leaf. -/
def JVal.asStr : JVal → Option String
  | .str s => some s
  | .obj _ => none

/-- A field mapping as stored in `column_mapping`: the dict
`{"type": "column"|"custom", "value": v}` of `map_column`. -/
inductive FieldMapping where
  | column (name : String)
  | custom (value : String)

/-- The `"value"` entry of the mapping dict, read without consulting
`"type"` — exactly what `column_mapping["mobile_no"]["value"]` does. -/
def mappingValue : FieldMapping → String
  | .column n => n
  | .custom v => v

/-- A spreadsheet row: column name to cell value (already str()-rendered). -/
def Record := List (String × String)

/-- `row.get(name)` with no default: the underlying lookup. -/
def rowLookup : Record → String → Option String
  | [], _ => none
  | (k, v) :: rest, name => if k = name then some v else rowLookup rest name

/-- `str(row.get(name, default))`: lookup with a default. -/
def rowGetD (row : Record) (name default : String) : String :=
  match rowLookup row name with
  | some v => v
  | none => default

/-- The mapping table `column_mapping`: field name to its mapping. -/
def MappingTable := List (String × FieldMapping)

/-- Dict read `column_mapping.get(field)` / `column_mapping[field]`. -/
def lookupMapping : MappingTable → String → Option FieldMapping
  | [], _ => none
  | (k, m) :: rest, field => if k = field then some m else lookupMapping rest field

/-- Python str.strip(): drop leading and trailing whitespace. -/
def pyStrip (s : String) : String :=
  String.mk (((s.data.dropWhile Char.isWhitespace).reverse.dropWhile
    Char.isWhitespace).reverse)

/-- One iteration of the params loop (lines 228-235): for a column mapping,
`str(row.get(value, "")).strip()`; for a custom mapping, the value itself. -/
def resolveParam (row : Record) : FieldMapping → String
  | .column n => pyStrip (rowGetD row n "")
  | .custom v => v

/-- The params dict built by the loop at lines 227-235: every
`column_mapping` entry except `mobile_no`, resolved to a string. -/
def resolvedParams (cm : MappingTable) (row : Record) : List (String × JVal) :=
  cm.filterMap fun fm =>
    if fm.1 = "mobile_no" then none
    else some (fm.1, JVal.str (resolveParam row fm.2))

/-- The recipient number at line 239:
`str(row.get(column_mapping["mobile_no"]["value"], ""))`. The mapping's
`"value"` is used as a row key whatever the mapping's `"type"` is. -/
def mobileNumber (m : FieldMapping) (row : Record) : String :=
  rowGetD row (mappingValue m) ""

/-- `final_img` (lines 217-224): the uploaded image URL wins; else a
non-empty image column whose stripped row value starts with "http"; else
empty. -/
def final_img (image_url image_col_map : String) (row : Record) : String :=
  if image_url ≠ "" then image_url
  else if image_col_map ≠ "" then
    let row_img_url := pyStrip (rowGetD row image_col_map "")
    if row_img_url.startsWith "http" then row_img_url else ""
  else ""

/-- The JSON body that requests.post serializes (lines 237-252). The dict
literal stores a reference to the params dict, and line 250 then mutates
that same dict (`params["media"] = ...`), so at serialization time the
media object is the last entry of `notification.params`; the
`notification` object itself has exactly the four keys of the literal. -/
def build_payload (cm : MappingTable) (m : FieldMapping) (template_id : String)
    (fimg : String) (row : Record) : JVal :=
  let params0 := resolvedParams cm row
  let params :=
    if fimg = "" then params0
    else params0 ++ [("media", JVal.obj [("mediaLink", JVal.str fimg)])]
  JVal.obj
    [("userDetails", JVal.obj [("number", JVal.str (mobileNumber m row))]),
     ("notification", JVal.obj
       [("type", JVal.str "whatsapp"),
        ("sender", JVal.str "919311239211"),
        ("templateId", JVal.str template_id),
        ("params", JVal.obj params)])]

/-- The JSON body of an HTTP response, as far as the code reads it:
`resp_json.get("message", default)`. -/
structure RespJson where
  message : Option String

/-- An HTTP response: status code, and the result of `response.json()`
(`Except.error e` models a JSON-decoding exception with text `e`). -/
structure HttpResponse where
  status_code : Nat
  jsonBody : Except String RespJson

/-- Outcome classification of one send (lines 252-259): the post itself may
raise (`Except.error`), `response.json()` runs next and may raise, and only
then is the status code inspected. -/
def classifyOutcome (net : Except String HttpResponse) : String × String :=
  match net with
  | .error e => ("Error", e)
  | .ok r =>
    match r.jsonBody with
    | .error e => ("Error", e)
    | .ok j =>
      if r.status_code = 200 ∨ r.status_code = 202 then
        ("Sent", j.message.getD "Success")
      else
        ("Failed", j.message.getD ("HTTP " ++ toString r.status_code))

/-- Python renders str(KeyError("mobile_no")) with surrounding single
quotes; this is the exception text a task reports when `column_mapping`
has no `mobile_no` entry. -/
def keyErrorMobileNo : String :=
  String.singleton (Char.ofNat 39) ++ "mobile_no" ++ String.singleton (Char.ofNat 39)

/-- `send_message(i, row)` (lines 215-259). Returns the `(i, status, msg)`
triple the future resolves to, paired with `some payload` when
requests.post was invoked with that body and `none` when the task raised
before reaching the network (the only pre-network raise on this path is
the KeyError at line 239 when `mobile_no` is unmapped; the try/except
turns it into an Error row). -/
def send_message (cm : MappingTable) (template_id image_url image_col_map : String)
    (net : Except String HttpResponse) (i : Nat) (row : Record) :
    (Nat × String × String) × Option JVal :=
  match lookupMapping cm "mobile_no" with
  | none => ((i, "Error", keyErrorMobileNo), none)
  | some m =>
    let payload := build_payload cm m template_id (final_img image_url image_col_map row) row
    let r := classifyOutcome net
    ((i, r.1, r.2), some payload)

/-- Number of network calls a batch performs: one per task whose
requests.post was reached. -/
def dispatchPosts (cm : MappingTable) (template_id image_url image_col_map : String)
    (net : Except String HttpResponse) (rows : List Record) : Nat :=
  (rows.map fun row => (send_message cm template_id image_url image_col_map net 0 row).2).countP
    fun p => p.isSome

/-- Write loop over one result array: for each completed index `i`, set
slot `i` to `f i` (one component of `status[i] = stat` /
`response_texts[i] = msg` at lines 270-271). -/
def writeAll (f : Nat → String) : List Nat → List String → List String
  | [], st => st
  | i :: rest, st => writeAll f rest (st.set i (f i))

/-- The as_completed merge loop (lines 266-273): futures complete in some
order; each completion writes both arrays at its own index. -/
def mergeCompleted (task : Nat → String × String) :
    List Nat → List String × List String → List String × List String
  | [], acc => acc
  | i :: rest, acc =>
    mergeCompleted task rest (acc.1.set i (task i).1, acc.2.set i (task i).2)

/-- The whole dispatch merge: `status` and `response_texts` start as
`[""] * len(df)` (lines 212-213) and the completion loop fills them. -/
def runDispatch (N : Nat) (task : Nat → String × String) (order : List Nat) :
    List String × List String :=
  mergeCompleted task order (List.replicate N "", List.replicate N "")

/-- One output row of the report: original cells, then Status, then
API Response (lines 275-276). -/
def reportRow (origValues : List String) (status msg : String) : List String :=
  origValues ++ [status, msg]

/-- openpyxl's `ws["D..."].value` for a row of our cells: the fourth cell,
or Python None rendered by str() when the sheet is narrower. -/
def cellD (cells : List String) : String :=
  match cells.get? 3 with
  | some v => v
  | none => "None"

/-- Python str.lower() restricted to ASCII, which covers every value the
report writes into the status column. -/
def pyLower (s : String) : String :=
  String.mk (s.data.map fun c => if c.isUpper then Char.ofNat (c.toNat + 32) else c)

/-- The highlight test of the loop at lines 287-290:
`str(ws[f"D{row}"].value).lower() in ["failed", "error"]`. -/
def highlightRow (cells : List String) : Bool :=
  (pyLower (cellD cells) == "failed") || (pyLower (cellD cells) == "error")

/-- The keyword arguments of the requests.post call at line 252. requests
defaults to no timeout when the `timeout` keyword is absent, and line 252
passes only `url`, `json` and `headers`. -/
structure PostCall where
  url : String
  hasJsonBody : Bool
  hasHeaders : Bool
  timeout : Option Nat

/-- The concrete call the code makes (line 252): no timeout keyword. -/
def sendPostCall : PostCall :=
  { url := "https://cloud.yellow.ai/api/engagements/notifications/v2/push?bot=x1683181251134"
    hasJsonBody := true
    hasHeaders := true
    timeout := none }

/-- The `media` entry of the `notification` object of a payload, if any. -/
def notifMedia (p : JVal) : Option JVal :=
  (p.lookup "notification").bind fun n => n.lookup "media"

/-- The `params` entry of the `notification` object of a payload. -/
def notifParams (p : JVal) : Option JVal :=
  (p.lookup "notification").bind fun n => n.lookup "params"

/-- The `media` entry inside `notification.params`, if any. -/
def paramsMedia (p : JVal) : Option JVal :=
  (notifParams p).bind fun ps => ps.lookup "media"

/-- The field list of `notification.params` (empty if absent). -/
def paramsFields (p : JVal) : List (String × JVal) :=
  match notifParams p with
  | some (.obj fs) => fs
  | _ => []

/-- The `mediaLink` string of a media object, if any. -/
def mediaLinkOf (m : JVal) : Option String :=
  (m.lookup "mediaLink").bind JVal.asStr

/-- The `userDetails.number` string of a payload, if any. -/
def payloadNumber (p : JVal) : Option String :=
  ((p.lookup "userDetails").bind fun u => u.lookup "number").bind JVal.asStr

/-- A concrete task outcome table used to instantiate the merge theorem. -/
def wtask (i : Nat) : String × String :=
  (toString i, toString (i + 7))

/-- Concrete mapping table: mobile number from column Phone, one template
field from column Name. -/
def cmC2 : MappingTable :=
  [("mobile_no", FieldMapping.column "Phone"), ("name", FieldMapping.column "Name")]

/-- Concrete row matching `cmC2`. -/
def rowC2 : Record := [("Phone", "919000000001"), ("Name", "Alice")]

/-- The payload built for `rowC2` with a non-empty resolved image URL. -/
def payloadC2 : JVal :=
  build_payload cmC2 (FieldMapping.column "Phone") "tid1" "http://img.example/x.png" rowC2

/-- Mapping table whose `mobile_no` is a Custom (manual) value. -/
def cmC3 : MappingTable := [("mobile_no", FieldMapping.custom "919876543210")]

/-- A row that has no column named after the manual value of `cmC3`. -/
def rowC3 : Record := [("Name", "Alice")]

/-- Mapping table that maps `mobile_no` but omits the template placeholder
`name` that the template body requires. -/
def cmC4 : MappingTable := [("mobile_no", FieldMapping.column "Phone")]

/-- Mapping table with no `mobile_no` entry at all. -/
def cmNoMobile : MappingTable := [("name", FieldMapping.column "Name")]

/-- A network oracle that answers HTTP 202 with an empty JSON object. -/
def netOk : Except String HttpResponse :=
  Except.ok { status_code := 202, jsonBody := Except.ok { message := none } }

/-! Helper lemmas about the merge loop. -/

theorem writeAll_length (f : Nat → String) :
    ∀ (order : List Nat) (st : List String),
      (writeAll f order st).length = st.length := by
  intro order
  induction order with
  | nil => intro st; rfl
  | cons j rest ih =>
    intro st
    rw [writeAll, ih, List.length_set]

theorem writeAll_getElem?_of_not_mem (f : Nat → String) :
    ∀ (order : List Nat) (st : List String) (i : Nat), i ∉ order →
      (writeAll f order st)[i]? = st[i]? := by
  intro order
  induction order with
  | nil => intro st i _; rfl
  | cons j rest ih =>
    intro st i hi
    have hji : j ≠ i := fun h => hi (h ▸ List.mem_cons_self j rest)
    have hrest : i ∉ rest := fun h => hi (List.mem_cons_of_mem j h)
    rw [writeAll, ih _ _ hrest, List.getElem?_set_ne hji]

theorem writeAll_getElem?_of_mem (f : Nat → String) :
    ∀ (order : List Nat) (st : List String) (i : Nat), i ∈ order → i < st.length →
      (writeAll f order st)[i]? = some (f i) := by
  intro order
  induction order with
  | nil => intro st i hi _; exact absurd hi (List.not_mem_nil i)
  | cons j rest ih =>
    intro st i hi hlen
    rw [writeAll]
    by_cases hr : i ∈ rest
    · exact ih _ _ hr (by rw [List.length_set]; exact hlen)
    · have hij : i = j := by
        rcases List.mem_cons.mp hi with h | h
        · exact h
        · exact absurd h hr
      subst hij
      rw [writeAll_getElem?_of_not_mem f rest _ i hr]
      exact List.getElem?_set_eq_of_lt (f i) hlen

theorem mergeCompleted_eq (task : Nat → String × String) :
    ∀ (order : List Nat) (a b : List String),
      mergeCompleted task order (a, b) =
        (writeAll (fun i => (task i).1) order a,
         writeAll (fun i => (task i).2) order b) := by
  intro order
  induction order with
  | nil => intro a b; rfl
  | cons j rest ih =>
    intro a b
    rw [mergeCompleted, writeAll, writeAll]
    exact ih _ _

/-! The claim theorems. -/

/-- C1: for a batch of N records and any completion order of the send
futures (a permutation of the indices 0..N-1, each future yielded exactly
once by as_completed), the merged status and response arrays have length
N and position i holds exactly the pair produced by the task for record
i, so report row order equals input row order. -/
theorem result_merge_correct (N : Nat) (task : Nat → String × String) (order : List Nat)
    (hperm : order.Perm (List.range N)) :
    order.Nodup ∧ order.length = N ∧
    (runDispatch N task order).1.length = N ∧
    (runDispatch N task order).2.length = N ∧
    ∀ i, i < N →
      (runDispatch N task order).1[i]? = some (task i).1 ∧
      (runDispatch N task order).2[i]? = some (task i).2 := by
  have hnd : order.Nodup := hperm.nodup_iff.mpr (List.nodup_range N)
  have hlen : order.length = N := by simpa using hperm.length_eq
  have hrepl : (List.replicate N ("" : String)).length = N := List.length_replicate N ""
  refine ⟨hnd, hlen, ?_, ?_, ?_⟩
  · rw [runDispatch, mergeCompleted_eq]
    simp [writeAll_length]
  · rw [runDispatch, mergeCompleted_eq]
    simp [writeAll_length]
  · intro i hi
    have hmem : i ∈ order := hperm.mem_iff.mpr (List.mem_range.mpr hi)
    have hlt : i < (List.replicate N ("" : String)).length := by rw [hrepl]; exact hi
    rw [runDispatch, mergeCompleted_eq]
    exact ⟨writeAll_getElem?_of_mem _ order _ i hmem hlt,
           writeAll_getElem?_of_mem _ order _ i hmem hlt⟩

/-- C1 witness: a concrete 3-record batch completing in order [2, 0, 1]
still reports record 1's outcome at position 1. -/
theorem result_merge_correct_witness :
    (runDispatch 3 wtask [2, 0, 1]).1[1]? = some (wtask 1).1 :=
  ((result_merge_correct 3 wtask [2, 0, 1] (by decide)).2.2.2.2 1 (by decide)).1

theorem resolvedParams_isStr (cm : MappingTable) (row : Record) :
    ∀ kv ∈ resolvedParams cm row, kv.2.isStr = true := by
  intro kv hkv
  obtain ⟨a, _, heq⟩ := List.mem_filterMap.mp hkv
  by_cases hm : a.1 = "mobile_no"
  · rw [if_pos hm] at heq
    exact absurd heq (by simp)
  · rw [if_neg hm] at heq
    obtain ⟨rfl⟩ : (a.1, JVal.str (resolveParam row a.2)) = kv := by
      simpa using heq
    rfl

theorem resolvedParams_no_mobile (cm : MappingTable) (row : Record) :
    ∀ kv ∈ resolvedParams cm row, kv.1 ≠ "mobile_no" := by
  intro kv hkv
  obtain ⟨a, _, heq⟩ := List.mem_filterMap.mp hkv
  by_cases hm : a.1 = "mobile_no"
  · rw [if_pos hm] at heq
    exact absurd heq (by simp)
  · rw [if_neg hm] at heq
    obtain ⟨rfl⟩ : (a.1, JVal.str (resolveParam row a.2)) = kv := by
      simpa using heq
    exact hm

/-- C2 counterexample: on a concrete task with a non-empty resolved image
URL, the POSTed payload has no `media` member in the `notification`
object; the media object sits inside `notification.params` (so `params`
does not map field names to strings only). -/
theorem media_alongside_params_counterexample :
    notifMedia payloadC2 = none ∧
    (paramsMedia payloadC2).bind mediaLinkOf = some "http://img.example/x.png" ∧
    ((paramsFields payloadC2).all fun kv => kv.2.isStr) = false := by
  refine ⟨rfl, rfl, rfl⟩

/-- C2 amended: for every task with a non-empty resolved image URL, the
`notification` object has no `media` member; instead the media object
`{ mediaLink }` is appended as the last entry of `notification.params`
(a consequence of `params["media"] = ...` mutating the dict already
referenced by the payload), and every other `params` entry is a string
with `mobile_no` excluded. -/
theorem media_inside_params (cm : MappingTable) (m : FieldMapping)
    (tid fimg : String) (row : Record) (h : fimg ≠ "") :
    notifMedia (build_payload cm m tid fimg row) = none ∧
    notifParams (build_payload cm m tid fimg row) =
      some (JVal.obj (resolvedParams cm row ++
        [("media", JVal.obj [("mediaLink", JVal.str fimg)])])) ∧
    (∀ kv ∈ resolvedParams cm row, kv.2.isStr = true) ∧
    (∀ kv ∈ resolvedParams cm row, kv.1 ≠ "mobile_no") := by
  refine ⟨?_, ?_, resolvedParams_isStr cm row, resolvedParams_no_mobile cm row⟩
  · simp [notifMedia, build_payload, JVal.lookup, lookupJFields, if_neg h]
  · simp [notifParams, build_payload, JVal.lookup, lookupJFields, if_neg h]

/-- C2 amended witness: the concrete payload `payloadC2` with image URL
"http://img.example/x.png". -/
theorem media_inside_params_witness :
    notifParams payloadC2 =
      some (JVal.obj (resolvedParams cmC2 rowC2 ++
        [("media", JVal.obj [("mediaLink", JVal.str "http://img.example/x.png")])])) :=
  (media_inside_params cmC2 (FieldMapping.column "Phone") "tid1"
    "http://img.example/x.png" rowC2 (by decide)).2.1

/-- C3: the code reads `column_mapping["mobile_no"]["value"]` and uses it
as a row key without consulting the mapping type, so a Custom (Literal)
mobile number is looked up as a column name: with `mobile_no` mapped to
the literal "919876543210" and a record without a column of that name,
the payload's userDetails.number is "" rather than the literal. -/
theorem mobile_literal_used_as_column_key :
    mobileNumber (FieldMapping.custom "919876543210") rowC3 = "" ∧
    payloadNumber (build_payload cmC3 (FieldMapping.custom "919876543210")
      "tid1" "" rowC3) = some "" ∧
    ("" : String) ≠ "919876543210" := by
  refine ⟨rfl, rfl, by decide⟩

/-- C4 counterexample: the template requires placeholder `name` but the
mapping table `cmC4` has no entry for it; the batch nevertheless performs
one network call (not zero) and no ConfigurationError exists anywhere in
the send path — the missing placeholder is silently absent from params. -/
theorem missing_placeholder_still_posts :
    dispatchPosts cmC4 "tid1" "" "" netOk [[("Phone", "919000000001")]] = 1 ∧
    lookupMapping cmC4 "name" = none ∧
    lookupJFields (resolvedParams cmC4 [("Phone", "919000000001")]) "name" = none := by
  refine ⟨rfl, rfl, rfl⟩

theorem lookupJFields_resolvedParams_of_not_key (row : Record) :
    ∀ (cm : MappingTable) (f : String), lookupMapping cm f = none →
      lookupJFields (resolvedParams cm row) f = none := by
  intro cm
  induction cm with
  | nil => intro f _; rfl
  | cons kv rest ih =>
    intro f hf
    rw [lookupMapping] at hf
    by_cases hk : kv.1 = f
    · rw [if_pos hk] at hf
      exact absurd hf (by simp)
    · rw [if_neg hk] at hf
      by_cases hm : kv.1 = "mobile_no"
      · show lookupJFields (resolvedParams (kv :: rest) row) f = none
        have : resolvedParams (kv :: rest) row = resolvedParams rest row := by
          simp [resolvedParams, List.filterMap_cons, if_pos hm]
        rw [this]
        exact ih f hf
      · have : resolvedParams (kv :: rest) row =
            (kv.1, JVal.str (resolveParam row kv.2)) :: resolvedParams rest row := by
          simp [resolvedParams, List.filterMap_cons, if_neg hm]
        rw [this, lookupJFields, if_neg hk]
        exact ih f hf

/-- C4 amended: there is no validation gate — dispatch always starts. A
mapping table missing `mobile_no` makes each task return an Error row
carrying the KeyError text, with no network call for that row; a mapping
table that has `mobile_no` always reaches the network, and a missing
placeholder entry is silently omitted from the transmitted params. -/
theorem no_validation_gate (cm : MappingTable) (tid img icm : String)
    (net : Except String HttpResponse) (i : Nat) (row : Record) :
    (lookupMapping cm "mobile_no" = none →
      send_message cm tid img icm net i row = ((i, "Error", keyErrorMobileNo), none)) ∧
    (∀ m, lookupMapping cm "mobile_no" = some m →
      ((send_message cm tid img icm net i row).2).isSome = true) ∧
    (∀ f, lookupMapping cm f = none →
      lookupJFields (resolvedParams cm row) f = none) := by
    refine ⟨?_, ?_, fun f hf => lookupJFields_resolvedParams_of_not_key row cm f hf⟩
    · intro h
      rw [send_message, h]
    · intro m h
      rw [send_message, h]
      rfl

/-- C4 amended witness: with no `mobile_no` entry the concrete task
reports an Error row and makes no network call. -/
theorem no_validation_gate_witness :
    send_message cmNoMobile "tid1" "" "" netOk 0 rowC3 =
      ((0, "Error", keyErrorMobileNo), none) :=
  (no_validation_gate cmNoMobile "tid1" "" "" netOk 0 rowC3).1 rfl

/-- C5: every task outcome is exactly one of Sent, Failed, Error; a post
exception yields Error with the exception text, a JSON-decoding exception
yields Error with its text, status 200/202 (with a decodable body) yields
Sent with the API message or "Success", and any other status yields
Failed with the API message or "HTTP <status>". -/
theorem outcome_classification (net : Except String HttpResponse) :
    (∀ e, net = Except.error e → classifyOutcome net = ("Error", e)) ∧
    (∀ r e, net = Except.ok r → r.jsonBody = Except.error e →
      classifyOutcome net = ("Error", e)) ∧
    (∀ r j, net = Except.ok r → r.jsonBody = Except.ok j →
      (r.status_code = 200 ∨ r.status_code = 202) →
      classifyOutcome net = ("Sent", j.message.getD "Success")) ∧
    (∀ r j, net = Except.ok r → r.jsonBody = Except.ok j →
      ¬(r.status_code = 200 ∨ r.status_code = 202) →
      classifyOutcome net = ("Failed", j.message.getD ("HTTP " ++ toString r.status_code))) ∧
    ((classifyOutcome net).1 = "Sent" ∨ (classifyOutcome net).1 = "Failed" ∨
      (classifyOutcome net).1 = "Error") := by
  refine ⟨?_, ?_, ?_, ?_, ?_⟩
  · intro e h
    subst h
    rfl
  · intro r e h hb
    subst h
    simp [classifyOutcome, hb]
  · intro r j h hb hs
    subst h
    simp [classifyOutcome, hb, if_pos hs]
  · intro r j h hb hs
    subst h
    simp [classifyOutcome, hb, if_neg hs]
  · match net with
    | .error e => exact Or.inr (Or.inr rfl)
    | .ok r =>
      match hb : r.jsonBody with
      | .error e => simp [classifyOutcome, hb]
      | .ok j =>
        by_cases hs : r.status_code = 200 ∨ r.status_code = 202
        · simp [classifyOutcome, hb, if_pos hs]
        · simp [classifyOutcome, hb, if_neg hs]

/-- C5 witness: a 200 response whose body carries message "done" is
classified Sent with that message. -/
theorem outcome_classification_witness :
    classifyOutcome (Except.ok { status_code := 200, jsonBody := Except.ok { message := some "done" } }) =
      ("Sent", "done") :=
  (outcome_classification _).2.2.1
    { status_code := 200, jsonBody := Except.ok { message := some "done" } }
    { message := some "done" } rfl rfl (Or.inl rfl)

/-- C6: the params resolver is total and exception-free — it always
returns a string; a Column mapping whose name is absent from the record
resolves to the empty string, and a Custom (Literal) mapping resolves to
its value unchanged for every record. -/
theorem mapping_resolver_total (row : Record) :
    (∀ n, rowLookup row n = none → resolveParam row (FieldMapping.column n) = "") ∧
    (∀ v, resolveParam row (FieldMapping.custom v) = v) := by
  constructor
  · intro n hn
    show pyStrip (rowGetD row n "") = ""
    rw [rowGetD, hn]
    rfl
  · intro v
    rfl

/-- C6 witness: on the record [("A", "1")], the absent column "B"
resolves to "" and the literal "X1" resolves to itself. -/
theorem mapping_resolver_total_witness :
    resolveParam [("A", "1")] (FieldMapping.column "B") = "" ∧
    resolveParam [("A", "1")] (FieldMapping.custom "X1") = "X1" :=
  ⟨(mapping_resolver_total [("A", "1")]).1 "B" rfl,
   (mapping_resolver_total [("A", "1")]).2 "X1"⟩

/-- C7: the resolved image URL follows strict priority — a non-empty
run-wide uploaded image URL wins for every record regardless of the
record's image column; otherwise a selected image column contributes its
stripped row value exactly when that value starts with "http"; otherwise
the resolved image is empty. -/
theorem image_priority (image_url image_col_map : String) (row : Record) :
    (image_url ≠ "" → final_img image_url image_col_map row = image_url) ∧
    (image_url = "" → image_col_map ≠ "" →
      ((pyStrip (rowGetD row image_col_map "")).startsWith "http" = true →
        final_img image_url image_col_map row = pyStrip (rowGetD row image_col_map "")) ∧
      ((pyStrip (rowGetD row image_col_map "")).startsWith "http" = false →
        final_img image_url image_col_map row = "")) ∧
    (image_url = "" → image_col_map = "" →
      final_img image_url image_col_map row = "") := by
  refine ⟨?_, ?_, ?_⟩
  · intro h
    rw [final_img, if_pos h]
  · intro h hc
    subst h
    constructor
    · intro hs
      simp [final_img, if_neg hc, hs]
    · intro hs
      simp [final_img, if_neg hc, hs]
  · intro h hc
    subst h
    subst hc
    rfl

/-- C7 witness: a run-wide uploaded image overrides a record whose image
column holds another URL. -/
theorem image_priority_witness :
    final_img "http://up.example/a.png" "Img" [("Img", "http://row.example/b.png")] =
      "http://up.example/a.png" :=
  (image_priority "http://up.example/a.png" "Img"
    [("Img", "http://row.example/b.png")]).1 (by decide)

/-- C8: the highlight pass reads the hardcoded spreadsheet column D
instead of the Status column. With one original column the Status cell is
column B and a Failed row is left unmarked; with two original columns
column D is API Response, so a Sent row whose response text is "Error"
is wrongly marked. -/
theorem highlight_checks_fixed_column_D :
    highlightRow (reportRow ["Alice"] "Failed" "ok") = false ∧
    highlightRow (reportRow ["v1", "v2"] "Sent" "Error") = true := by
  refine ⟨rfl, rfl⟩

/-- C9 counterexample: the requests.post invocation of the send path
passes no timeout keyword, so no per-call timeout bounds the call. -/
theorem send_call_timeout_missing :
    ¬ ∃ t, sendPostCall.timeout = some t := by
  rintro ⟨t, h⟩
  exact absurd h (by simp [sendPostCall])

/-- C9 amended: the outbound send call sets no per-call timeout (the
requests default of waiting indefinitely applies), and any transport
exception that does occur is converted into an Error result for that row
rather than propagating out of the task. -/
theorem send_call_no_timeout :
    sendPostCall.timeout = none ∧
    ∀ e, classifyOutcome (Except.error e) = ("Error", e) :=
  ⟨rfl, fun _ => rfl⟩

/-- C10: response.json() runs before the status code is inspected, so a
response with a success status whose body fails to JSON-decode is
classified Error with the decoding exception's text, never Sent. -/
theorem json_decode_precedes_status (r : HttpResponse) (e : String)
    (_hs : r.status_code = 200 ∨ r.status_code = 202)
    (hb : r.jsonBody = Except.error e) :
    classifyOutcome (Except.ok r) = ("Error", e) := by
  simp [classifyOutcome, hb]

/-- C10 witness: an HTTP 200 response with an undecodable body is
classified Error carrying the decoder's text. -/
theorem json_decode_precedes_status_witness :
    classifyOutcome (Except.ok { status_code := 200, jsonBody := Except.error "Expecting value" }) =
      ("Error", "Expecting value") :=
  json_decode_precedes_status
    { status_code := 200, jsonBody := Except.error "Expecting value" }
    "Expecting value" (Or.inl rfl) rfl

end AppV2
